import Mathlib

/-!
Verification development for the nv_monitor repository.

Shallow embedding of the collection → classification → broadcast pipeline:

* src/backend/anomaly_detector.py — GPUStatus, StatusThreshold, GPUAnomalyDetector
  (update / detect over per-device history windows);
* src/backend/monitor.py — BaseMonitor's bounded sample queue
  (the monitoring loop's overwrite-on-full enqueue and get_current_data)
  and GPUMonitor.get_metrics with its three diagnostic cadences;
* src/backend/websocket.py — WebSocketManager.broadcast iterating the
  subscriber list, updating windows and classifying inside the loop.

Numbers are embedded as rationals (Python ints/floats; no float rounding is
modelled).  Python dicts keyed by device id become functions to Option, or
association lists where iteration order matters.  Fallible Python code
(expressions that can raise) is embedded with Option: none models a raised
exception at the corresponding program point.
-/

/-! Sample queue of BaseMonitor (monitor.py).  The queue is generic in the
stored element, as queue.Queue is. -/

/-! GPUMonitor.get_metrics (monitor.py lines 152-186): per-tick merge of
basic metrics with the three slow diagnostic checks, each gated by its own
last-run timestamp. -/

/-! WebSocketManager.broadcast (websocket.py lines 25-41). -/

/-- Enumeration GPUStatus from anomaly_detector.py (values are the Chinese
display strings 稳定 / 波动 / 故障; only the constructor identity matters
here). -/
inductive GPUStatus where
  | NORMAL
  | FLUCTUATING
  | CRITICAL
deriving DecidableEq

/-- One per-device metrics dict as consumed by the detector.  Required keys
(always produced by GPUMonitor._get_basic_metrics) are plain fields; keys
that may be absent are Option fields, where none means the key is absent.
driver_version is Option (Option String): the outer layer is key presence,
the inner layer is the Python value which may itself be None. -/
structure MetricSample where
  name : String := ""
  memory_used : ℚ := 0
  memory_total : ℚ := 1
  memory_free : ℚ := 0
  utilization_gpu : ℚ := 0
  utilization_memory : ℚ := 0
  temperature : ℚ := 0
  power_draw : ℚ := 0
  driver_version : Option (Option String) := none
  nvidia_smi_ok : Option Bool := none
  ecc_errors : Option Int := none
  power_error : Option String := none
deriving DecidableEq

/-- Threshold configuration dataclass StatusThreshold with its default
values (0.8, 0.9, 0.95 written as exact rationals). -/
structure StatusThreshold where
  temp_warning : ℚ := 75
  temp_critical : ℚ := 85
  util_low : ℚ := 5
  util_normal : ℚ := 80
  util_high : ℚ := 95
  util_std_warning : ℚ := 15
  power_std_warning : ℚ := 20
  memory_normal : ℚ := 4 / 5
  memory_high : ℚ := 9 / 10
  memory_critical : ℚ := 19 / 20
  ecc_warning : Int := 1
deriving DecidableEq

/-- The detector instance built by GPUAnomalyDetector.__init__ always uses
the dataclass defaults. -/
def defaultThresholds : StatusThreshold := {}

/-- One accumulated reason message.  The Python code builds f-strings; the
constructors carry exactly the dynamic data interpolated into them
(σ-messages carry the population variance: np.std ≥ t was compared, which
for t ≥ 0 is equivalent to variance ≥ t·t, and the defaults 15 and 20 are
positive). -/
inductive Msg where
  | eccErr (n : Int)
  | tempCritical (t : ℚ)
  | memCritical (r : ℚ)
  | utilFluct (variance : ℚ)
  | powerFluct (variance : ℚ)
  | tempWarning (t : ℚ)
  | memWarning (r : ℚ)
deriving DecidableEq

/-- A detect result reason: either a literal string computed by pure string
operations in the source, or a list of accumulated messages that the source
joins with the separator.  Number-to-string formatting of ℚ values is not
modelled, so joined message lists stay structured. -/
inductive Reason where
  | text (s : String)
  | msgs (l : List Msg)
deriving DecidableEq

/-- Python " | ".join. -/
def joinBar (l : List String) : String := String.intercalate " | " l

/-- Python or-default: " | ".join(xs) or "正常运行" (empty string is falsy). -/
def orNormal (s : String) : String := if s = "" then "正常运行" else s

/-- Helper for pyTokens: split a character list on whitespace runs,
accumulating the current (reversed) token. -/
def splitWs : List Char → List Char → List (List Char)
  | [], acc => if acc = [] then [] else [acc.reverse]
  | c :: cs, acc =>
    if c.isWhitespace then
      (if acc = [] then splitWs cs [] else acc.reverse :: splitWs cs [])
    else splitWs cs (c :: acc)

/-- Python s.split() with no separator: split on whitespace runs, dropping
empty pieces. -/
def pyTokens (s : String) : List String :=
  (splitWs s.toList []).map fun cs => String.mk cs

/-- Population variance (np.std squared): mean of squared deviations from
the mean.  Only evaluated on windows of length ≥ 3. -/
def popVar (xs : List ℚ) : ℚ :=
  ((xs.map fun x => (x - xs.sum / (xs.length : ℚ)) * (x - xs.sum / (xs.length : ℚ))).sum)
    / (xs.length : ℚ)

/-- Messages appended for 'ecc_errors' in latest and latest['ecc_errors'] > 0. -/
def eccMsgs (latest : MetricSample) : List Msg :=
  match latest.ecc_errors with
  | some n => if 0 < n then [Msg.eccErr n] else []
  | none => []

/-- Message appended for latest['temperature'] >= temp_critical. -/
def tempCritMsgs (th : StatusThreshold) (latest : MetricSample) : List Msg :=
  if th.temp_critical ≤ latest.temperature then [Msg.tempCritical latest.temperature] else []

/-- Message appended for memory_usage >= memory_critical. -/
def memCritMsgs (th : StatusThreshold) (mu : ℚ) : List Msg :=
  if th.memory_critical ≤ mu then [Msg.memCritical mu] else []

/-- The critical_reasons list accumulated by detect (ECC, then temperature,
then memory), with mu = memory_used / memory_total. -/
def criticalMsgs (th : StatusThreshold) (latest : MetricSample) : List Msg :=
  eccMsgs latest ++ tempCritMsgs th latest ++
    memCritMsgs th (latest.memory_used / latest.memory_total)

/-- Fluctuation warnings: for windows of length ≥ 3, np.std of
utilization_gpu and of power_draw across the whole window is compared to
the warning thresholds (σ ≥ t encoded as variance ≥ t·t; defaults 15, 20). -/
def fluctMsgs (th : StatusThreshold) (history : List MetricSample) : List Msg :=
  if 3 ≤ history.length then
    (if th.util_std_warning * th.util_std_warning
        ≤ popVar (history.map fun m => m.utilization_gpu) then
       [Msg.utilFluct (popVar (history.map fun m => m.utilization_gpu))] else []) ++
    (if th.power_std_warning * th.power_std_warning
        ≤ popVar (history.map fun m => m.power_draw) then
       [Msg.powerFluct (popVar (history.map fun m => m.power_draw))] else [])
  else []

/-- The warnings list accumulated by detect: fluctuation σ checks, then
temperature warning, then memory warning. -/
def warnMsgs (th : StatusThreshold) (history : List MetricSample) (latest : MetricSample) : List Msg :=
  fluctMsgs th history ++
    (if th.temp_warning ≤ latest.temperature then [Msg.tempWarning latest.temperature] else []) ++
    (if th.memory_high ≤ latest.memory_used / latest.memory_total then
       [Msg.memWarning (latest.memory_used / latest.memory_total)] else [])

/-- Load bucket tag of the NORMAL branch. -/
def loadDesc (th : StatusThreshold) (util : ℚ) : String :=
  if util < th.util_low then "低负载"
  else if th.util_normal < util then "高负载"
  else "正常负载"

/-- The status_desc tags before the driver tag: load bucket, then
"高显存" when memory_usage > memory_normal. -/
def normalDescList (th : StatusThreshold) (latest : MetricSample) : List String :=
  [loadDesc th latest.utilization_gpu] ++
    (if th.memory_normal < latest.memory_used / latest.memory_total then ["高显存"] else [])

/-- The NORMAL-branch reason string.  The driver tag evaluates
latest['driver_version'].split()[0]: a present-but-None value raises
AttributeError and a string with no whitespace tokens raises IndexError,
both modelled as none. -/
def normalText (th : StatusThreshold) (latest : MetricSample) : Option String :=
  match latest.driver_version with
  | none => some (orNormal (joinBar (normalDescList th latest)))
  | some none => none
  | some (some s) =>
    match pyTokens s with
    | [] => none
    | t :: _ =>
      some (orNormal (joinBar (normalDescList th latest ++ ["驱动 " ++ t])))

/-- GPUAnomalyDetector.detect evaluated on a history window (Python
history[-1] is the last element).  The result is none when the Python body
raises: memory_used / memory_total with memory_total = 0
(ZeroDivisionError — Python reaches the division before testing the
accumulated critical list, so the raise is observable whenever no earlier
short-circuit returned), or the driver-version split in the NORMAL branch.
The nvidia-smi test is key-present-and-falsy; the power test is
key-present-and-truthy (non-empty string). -/
def detectWindow (th : StatusThreshold) (history : List MetricSample) : Option (GPUStatus × Reason) :=
  match history.getLast? with
  | none => some (GPUStatus.CRITICAL, Reason.text "无监控数据")
  | some latest =>
    if latest.nvidia_smi_ok = some false then
      some (GPUStatus.CRITICAL, Reason.text "nvidia-smi 响应异常")
    else if latest.power_error.getD "" ≠ "" then
      some (GPUStatus.CRITICAL, Reason.text ("供电异常: " ++ latest.power_error.getD ""))
    else if latest.memory_total = 0 then
      none
    else if criticalMsgs th latest ≠ [] then
      some (GPUStatus.CRITICAL, Reason.msgs (criticalMsgs th latest))
    else if warnMsgs th history latest ≠ [] then
      some (GPUStatus.FLUCTUATING, Reason.msgs (warnMsgs th history latest))
    else
      (normalText th latest).map fun s => (GPUStatus.NORMAL, Reason.text s)

/-- Detector state: window_size, the per-device history dict (none models
key absence) and the thresholds. -/
structure GPUAnomalyDetector where
  window_size : Nat := 10
  history : String → Option (List MetricSample) := fun _ => none
  thresholds : StatusThreshold := {}

/-- A fresh GPUAnomalyDetector(window_size). -/
def mkDetector (w : Nat) : GPUAnomalyDetector :=
  { window_size := w, history := fun _ => none, thresholds := {} }

/-- The append-then-trim step of GPUAnomalyDetector.update: append the
sample, then list.pop(0) once if the length exceeds window_size. -/
def capAppend (w : Nat) (l : List MetricSample) (m : MetricSample) : List MetricSample :=
  if w < (l ++ [m]).length then (l ++ [m]).drop 1 else l ++ [m]

/-- GPUAnomalyDetector.update: create the window on first sight of the
device, append, evict the oldest entry once capacity is exceeded. -/
def GPUAnomalyDetector.update (d : GPUAnomalyDetector) (gpu_id : String)
    (metrics : MetricSample) : GPUAnomalyDetector :=
  { d with
    history := fun g =>
      if g = gpu_id then
        some (capAppend d.window_size ((d.history gpu_id).getD []) metrics)
      else d.history g }

/-- GPUAnomalyDetector.detect: a missing key or an empty window gives the
no-data result, otherwise the window is classified. -/
def GPUAnomalyDetector.detect (d : GPUAnomalyDetector) (gpu_id : String) :
    Option (GPUStatus × Reason) :=
  detectWindow d.thresholds ((d.history gpu_id).getD [])

/-- Python detect performs no assignment to self: embedded as a state
transformer it returns the result together with the unchanged state. -/
def GPUAnomalyDetector.detectM (d : GPUAnomalyDetector) (gpu_id : String) :
    Option (GPUStatus × Reason) × GPUAnomalyDetector :=
  (d.detect gpu_id, d)

/-- The window currently stored for a device (empty when the key is
absent). -/
def windowOf (d : GPUAnomalyDetector) (gpu_id : String) : List MetricSample :=
  (d.history gpu_id).getD []

/-- Apply a sequence of update calls. -/
def runUpdates (d : GPUAnomalyDetector) (ops : List (String × MetricSample)) :
    GPUAnomalyDetector :=
  ops.foldl (fun d p => d.update p.1 p.2) d

/-- The samples a sequence of update calls (or one snapshot's items)
carries for one device, in arrival order. -/
def devSamples (ops : List (String × MetricSample)) (gpu_id : String) :
    List MetricSample :=
  (ops.filter fun p => p.1 == gpu_id).map fun p => p.2

/-- Python queue.Queue.full(): 0 < maxsize <= qsize(). -/
def queueFull {α : Type} (cap : Nat) (q : List α) : Bool :=
  0 < cap && cap ≤ q.length

/-- One enqueue step of BaseMonitor._monitoring_loop: if the queue is full,
get() discards the oldest entry, then put() appends; it never blocks. -/
def monitorPush {α : Type} (cap : Nat) (q : List α) (x : α) : List α :=
  (if queueFull cap q then q.drop 1 else q) ++ [x]

/-- BaseMonitor.get_current_data: list(self.data_queue.queue) — a
non-destructive snapshot of the queue contents, paired with the queue it
leaves behind. -/
def get_current_data {α : Type} (q : List α) : List α × List α := (q, q)

/-- A whole sequence of producer pushes from an empty queue. -/
def pushAll {α : Type} (cap : Nat) (xs : List α) : List α :=
  xs.foldl (monitorPush cap) []

/-- The cadence state of GPUMonitor relevant to get_metrics. -/
structure GPUMonitorState where
  device_count : Nat
  driver_version : Option String := none
  last_ecc_check : ℚ := 0
  last_power_check : ℚ := 0
  last_driver_check : ℚ := 0

/-- External inputs of one get_metrics call: the clock and the results the
diagnostic commands and NVML would return during this tick (modelled as
constant within the tick). -/
structure TickEnv where
  now : ℚ
  basic : Nat → MetricSample
  ecc_result : List (String × Int)
  power_result : Option String := none
  driver_result : Option String := none
  smi_ok : Bool := true

/-- Device key f-string gpu_{i}. -/
def gpuKey (i : Nat) : String := "gpu_" ++ toString i

/-- Association-list lookup (Python dict access by key). -/
def lookupA {β : Type} : List (String × β) → String → Option β
  | [], _ => none
  | (k, v) :: rest, key => if k = key then some v else lookupA rest key

/-- The body of get_metrics for one device index i: base metrics, then the
ECC / power / driver cadence blocks in source order (each updates its own
last-run timestamp when it fires), then the always-set driver_version and
nvidia_smi_ok keys. -/
def deviceStep (env : TickEnv) (st : GPUMonitorState) (i : Nat) :
    GPUMonitorState × (String × MetricSample) :=
  let m0 := env.basic i
  let eccRun := (60 : ℚ) ≤ env.now - st.last_ecc_check
  let m1 :=
    if eccRun then
      match lookupA env.ecc_result (gpuKey i) with
      | some n => { m0 with ecc_errors := some n }
      | none => m0
    else m0
  let st1 := if eccRun then { st with last_ecc_check := env.now } else st
  let powerRun := (300 : ℚ) ≤ env.now - st1.last_power_check
  let m2 :=
    if powerRun then
      (if env.power_result.getD "" ≠ "" then { m1 with power_error := env.power_result } else m1)
    else m1
  let st2 := if powerRun then { st1 with last_power_check := env.now } else st1
  let st3 :=
    if (86400 : ℚ) ≤ env.now - st2.last_driver_check then
      { st2 with driver_version := env.driver_result, last_driver_check := env.now }
    else st2
  let m3 := { m2 with driver_version := some st3.driver_version, nvidia_smi_ok := some env.smi_ok }
  (st3, (gpuKey i, m3))

/-- GPUMonitor.get_metrics: iterate the devices 0 .. device_count-1,
threading the cadence timestamps through the loop, and collect the metrics
dict in insertion order. -/
def get_metrics (st : GPUMonitorState) (env : TickEnv) :
    GPUMonitorState × List (String × MetricSample) :=
  (List.range st.device_count).foldl
    (fun acc i =>
      let r := deviceStep env acc.1 i
      (r.1, acc.2 ++ [r.2]))
    (st, [])

/-- One subscriber connection; sendOk records whether send_json would
succeed for this broadcast. -/
structure Conn where
  sendOk : Bool
deriving DecidableEq

/-- WebSocketManager state relevant to broadcast. -/
structure WebSocketManager where
  active_connections : List Conn
  anomaly_detector : GPUAnomalyDetector

/-- The per-subscriber inner loop over the snapshot's metrics items:
update the device window, then classify it.  A raising detect call aborts
the rest of the items (the exception propagates to the per-connection try),
leaving the updates made so far in place; none records the abort. -/
def innerLoop (det : GPUAnomalyDetector) :
    List (String × MetricSample) →
      GPUAnomalyDetector × Option (List (String × (GPUStatus × Reason)))
  | [] => (det, some [])
  | (gid, m) :: rest =>
    let det2 := det.update gid m
    match det2.detect gid with
    | none => (det2, none)
    | some sr =>
      match innerLoop det2 rest with
      | (det3, none) => (det3, none)
      | (det3, some tl) => (det3, some ((gid, sr) :: tl))

/-- Whether the subscriber received the envelope: an inner-loop exception
means nothing was sent; otherwise delivery succeeds iff the send does. -/
def deliveredFlag (c : Conn) (res : Option (List (String × (GPUStatus × Reason)))) : Bool :=
  match res with
  | none => false
  | some _ => c.sendOk

/-- The loop over active_connections: every iteration reruns the inner
update-and-classify loop, and a caught failure (send or inner exception)
only affects that subscriber's delivered flag. -/
def broadcastLoop (det : GPUAnomalyDetector) (metrics : List (String × MetricSample)) :
    List Conn → GPUAnomalyDetector × List Bool
  | [] => (det, [])
  | c :: rest =>
    let s := innerLoop det metrics
    let r := broadcastLoop s.1 metrics rest
    (r.1, deliveredFlag c s.2 :: r.2)

/-- WebSocketManager.broadcast: runs the connection loop; the subscriber
list itself is never modified by this method. -/
def WebSocketManager.broadcast (mgr : WebSocketManager)
    (metrics : List (String × MetricSample)) : WebSocketManager × List Bool :=
  let r := broadcastLoop mgr.anomaly_detector metrics mgr.active_connections
  ({ mgr with anomaly_detector := r.1 }, r.2)

/-- A sample on which detect cannot raise: nonzero memory_total, and a
driver_version that is either absent or a string with at least one
whitespace-separated token. -/
def safeSample (m : MetricSample) : Prop :=
  m.memory_total ≠ 0 ∧
    (m.driver_version = none ∨ ∃ s, m.driver_version = some (some s) ∧ pyTokens s ≠ [])

def okSample : MetricSample :=
  { memory_used := 0, memory_total := 1, utilization_gpu := 50,
    temperature := 30, power_draw := 100, nvidia_smi_ok := some true }

def c8DetectorA : GPUAnomalyDetector :=
  { window_size := 10, history := fun g => if g = "gpu_0" then some [okSample] else none,
    thresholds := {} }

def c8DetectorB : GPUAnomalyDetector :=
  { window_size := 7, history := fun g => if g = "gpu_0" then some [okSample] else some [],
    thresholds := {} }

def powerSample : MetricSample :=
  { memory_used := 0, memory_total := 1, utilization_gpu := 50, temperature := 30,
    power_draw := 100, nvidia_smi_ok := some true, power_error := some "Err" }

def oneDeviceMetrics : List (String × MetricSample) := [("gpu_0", okSample)]

def c2Manager : WebSocketManager :=
  { active_connections := [⟨false⟩, ⟨true⟩], anomaly_detector := mkDetector 10 }

def c10okSample : MetricSample := { okSample with driver_version := some (some "535.104.05") }

def emptyDriverSample : MetricSample :=
  { memory_used := 0, memory_total := 1, utilization_gpu := 50, temperature := 30,
    power_draw := 100, nvidia_smi_ok := some true, driver_version := some (some "") }

def criticalCond (hist : List MetricSample) : Prop :=
  hist = [] ∨ ∃ l, hist.getLast? = some l ∧
    (l.nvidia_smi_ok = some false ∨ l.power_error.getD "" ≠ "" ∨
     (∃ n, l.ecc_errors = some n ∧ 0 < n) ∨
     defaultThresholds.temp_critical ≤ l.temperature ∨
     defaultThresholds.memory_critical ≤ l.memory_used / l.memory_total)

def fluctCond (hist : List MetricSample) : Prop :=
  ∃ l, hist.getLast? = some l ∧
    ((3 ≤ hist.length ∧
      (defaultThresholds.util_std_warning * defaultThresholds.util_std_warning
         ≤ popVar (hist.map fun m => m.utilization_gpu) ∨
       defaultThresholds.power_std_warning * defaultThresholds.power_std_warning
         ≤ popVar (hist.map fun m => m.power_draw))) ∨
     defaultThresholds.temp_warning ≤ l.temperature ∨
     defaultThresholds.memory_high ≤ l.memory_used / l.memory_total)

def critSample : MetricSample := { okSample with temperature := 90 }

def badSample : MetricSample :=
  { memory_used := 0, memory_total := 0, utilization_gpu := 0, temperature := 0,
    power_draw := 0, nvidia_smi_ok := some true }

def c9Manager : WebSocketManager :=
  { active_connections := [⟨true⟩], anomaly_detector := mkDetector 10 }

def c9BadMetrics : List (String × MetricSample) :=
  [("gpu_a", badSample), ("gpu_b", okSample)]

def c9OkManager : WebSocketManager :=
  { active_connections := [⟨true⟩, ⟨true⟩], anomaly_detector := mkDetector 10 }

def c3Basic : MetricSample :=
  { memory_used := 0, memory_total := 1, utilization_gpu := 0, temperature := 30,
    power_draw := 100 }

def c3State : GPUMonitorState :=
  { device_count := 2, driver_version := none, last_ecc_check := 0,
    last_power_check := 0, last_driver_check := 0 }

def c3Env : TickEnv :=
  { now := 60, basic := fun _ => c3Basic,
    ecc_result := [("gpu_0", 1), ("gpu_1", 2)], power_result := none,
    driver_result := none, smi_ok := true }

def c3StateAfter : GPUMonitorState :=
  { device_count := 2, driver_version := none, last_ecc_check := 60,
    last_power_check := 0, last_driver_check := 0 }

def c3SampleEcc : MetricSample :=
  { c3Basic with
    ecc_errors := some 1, driver_version := some none, nvidia_smi_ok := some true }

def c3SampleNoEcc : MetricSample :=
  { c3Basic with
    driver_version := some none, nvidia_smi_ok := some true }

lemma monitorPush_suffix {α : Type} (cap : Nat) (hcap : 1 ≤ cap) (L : List α) (x : α) :
    monitorPush cap (L.drop (L.length - cap)) x = (L ++ [x]).drop ((L ++ [x]).length - cap) := by
  by_cases h : cap ≤ L.length
  · have hq : queueFull cap (L.drop (L.length - cap)) = true := by
      simp only [queueFull, List.length_drop, Bool.and_eq_true, decide_eq_true_eq]
      omega
    have h2 : (L ++ [x]).length - cap = L.length - cap + 1 := by
      simp only [List.length_append, List.length_singleton]; omega
    simp only [monitorPush, hq, if_true, List.drop_drop]
    rw [h2, List.drop_append_of_le_length (by omega)]
  · have hq : queueFull cap (L.drop (L.length - cap)) = false := by
      simp only [queueFull, List.length_drop, Bool.and_eq_false_iff,
        decide_eq_false_iff_not]
      omega
    have h0 : L.length - cap = 0 := by omega
    have h1 : L.length + 1 - cap = 0 := by omega
    simp only [h0, List.drop_zero] at hq
    simp [monitorPush, hq, h0, h1]

/-- Claim C1, amended. The claim said the coordinator's drain operation
atomically removes everything queued, leaving the queue empty.  In the code
the coordinator calls BaseMonitor.get_current_data, which returns the whole
queue contents in order but removes nothing (the counterexample shows the
queue is unchanged and a snapshot is returned again by the next drain).
Amended property: get_current_data returns everything currently queued in
arrival order and leaves the queue untouched; the producer's push never
blocks or fails and, for capacity at least 1, a push sequence from an empty
queue retains exactly the most recent cap entries in arrival order
(oldest evicted first). -/
theorem c1_queue_peek_and_fifo :
    (∀ (q : List Nat), get_current_data q = (q, q)) ∧
    (∀ (cap : Nat) (xs : List Nat), 1 ≤ cap →
      pushAll cap xs = xs.drop (xs.length - cap)) := by
  refine ⟨fun q => rfl, fun cap xs hcap => ?_⟩
  induction xs using List.reverseRecOn with
  | nil => simp [pushAll]
  | append_singleton ys y ih =>
    rw [pushAll, List.foldl_append, List.foldl_cons, List.foldl_nil, ← pushAll, ih]
    exact monitorPush_suffix cap hcap ys y

/-- Claim C1, counterexample. After one push and one drain the queue is
not empty, and a second drain with no intervening push returns the same
snapshot again — refuting the atomic remove-all reading of the claim. -/
theorem c1_counterexample :
    (get_current_data (monitorPush 50 ([] : List Nat) 7)).2 ≠ [] ∧
    (get_current_data ((get_current_data (monitorPush 50 ([] : List Nat) 7)).2)).1 = [7] ∧
    (get_current_data (monitorPush 50 ([] : List Nat) 7)).1 = [7] := by
  refine ⟨by decide, by decide, by decide⟩

/-- Witness for c1_queue_peek_and_fifo at capacity 3 with five pushes:
exactly the last three survive, in arrival order. -/
theorem c1_queue_witness :
    1 ≤ 3 ∧ pushAll 3 [0, 1, 2, 3, 4] = [0, 1, 2, 3, 4].drop ([0, 1, 2, 3, 4].length - 3) :=
  ⟨by decide, c1_queue_peek_and_fifo.2 3 [0, 1, 2, 3, 4] (by decide)⟩

lemma capAppend_suffix (w : Nat) (L : List MetricSample) (m : MetricSample) :
    capAppend w (L.drop (L.length - w)) m = (L ++ [m]).drop ((L ++ [m]).length - w) := by
  by_cases h : w ≤ L.length
  · have hlen : ((L.drop (L.length - w)) ++ [m]).length = w + 1 := by
      simp only [List.length_append, List.length_drop, List.length_singleton]; omega
    rw [capAppend, if_pos (by omega)]
    rcases Nat.eq_zero_or_pos w with hw | hw
    · subst hw
      have : L.drop (L.length - 0) = [] := by
        simp [List.drop_eq_nil_of_le]
      simp [this, List.drop_eq_nil_of_le, List.length_append]
    · rw [List.drop_append_of_le_length (by simp [List.length_drop]; omega),
        List.drop_drop]
      have h2 : (L ++ [m]).length - w = L.length - w + 1 := by
        simp only [List.length_append, List.length_singleton]; omega
      rw [h2, List.drop_append_of_le_length (by omega)]
  · have h0 : L.length - w = 0 := by omega
    have h1 : (L ++ [m]).length - w = 0 := by
      simp only [List.length_append, List.length_singleton]; omega
    rw [capAppend, if_neg (by simp only [List.length_append, List.length_drop,
      List.length_singleton]; omega), h0, h1]
    simp

lemma runUpdates_append (d : GPUAnomalyDetector) (ops : List (String × MetricSample))
    (p : String × MetricSample) :
    runUpdates d (ops ++ [p]) = (runUpdates d ops).update p.1 p.2 := by
  simp [runUpdates, List.foldl_append]

lemma devSamples_append (ops : List (String × MetricSample)) (p : String × MetricSample)
    (gid : String) :
    devSamples (ops ++ [p]) gid
      = devSamples ops gid ++ (if p.1 == gid then [p.2] else []) := by
  by_cases h : p.1 == gid <;>
    simp [devSamples, List.filter_append, List.filter_cons, h]

lemma window_size_update (d : GPUAnomalyDetector) (g : String) (m : MetricSample) :
    (d.update g m).window_size = d.window_size := rfl

lemma window_size_runUpdates (d : GPUAnomalyDetector) (ops : List (String × MetricSample)) :
    (runUpdates d ops).window_size = d.window_size := by
  induction ops generalizing d with
  | nil => rfl
  | cons p rest ih => simp [runUpdates, List.foldl_cons] at ih ⊢; rw [ih, window_size_update]

/-- Claim C7, confirmed. For every device and every sequence of update
calls from a fresh detector, the stored window equals the suffix of that
device's arrival-ordered samples of length at most the capacity (so length
never exceeds capacity, the oldest entry is evicted first, order is
preserved with most-recent last), and a device key exists exactly when the
device has been updated at least once (lazy creation). -/
theorem c7_history_window :
    ∀ (w : Nat) (ops : List (String × MetricSample)) (gid : String),
      ((runUpdates (mkDetector w) ops).history gid =
        if devSamples ops gid = [] then none
        else some ((devSamples ops gid).drop ((devSamples ops gid).length - w))) ∧
      (windowOf (runUpdates (mkDetector w) ops) gid).length ≤ w := by
  intro w ops gid
  have key : (runUpdates (mkDetector w) ops).history gid =
      if devSamples ops gid = [] then none
      else some ((devSamples ops gid).drop ((devSamples ops gid).length - w)) := by
    induction ops using List.reverseRecOn with
    | nil => simp [runUpdates, mkDetector, devSamples]
    | append_singleton ys p ih =>
      rw [runUpdates_append, devSamples_append]
      have hwin : ((runUpdates (mkDetector w) ys).history gid).getD []
          = (devSamples ys gid).drop ((devSamples ys gid).length - w) := by
        rw [ih]
        by_cases hnil : devSamples ys gid = [] <;> simp [hnil]
      by_cases h : p.1 == gid
      · have hgid : gid = p.1 := (beq_iff_eq.mp h).symm
        have hms : (mkDetector w).window_size = w := rfl
        rw [GPUAnomalyDetector.update]
        simp only [h, if_true, ← hgid, if_pos rfl]
        rw [hwin, window_size_runUpdates, hms, capAppend_suffix]
        simp
      · have hgid : ¬ gid = p.1 := fun hc => by simp [hc] at h
        rw [GPUAnomalyDetector.update]
        simp only [h, Bool.false_eq_true, if_false, List.append_nil]
        simp only [if_neg hgid]
        exact ih
  refine ⟨key, ?_⟩
  rw [windowOf, key]
  by_cases hnil : devSamples ops gid = []
  · simp [hnil]
  · simp only [hnil, if_false, Option.getD_some, List.length_drop]
    omega

/-- Claim C8, confirmed. The detect method performs no mutation: as a
state transformer it returns the state unchanged and a second call yields
the identical result; moreover the result depends only on the thresholds
and on the queried device's window, so equal windows give equal
(status, reason) pairs. -/
theorem c8_detect_pure :
    (∀ (d : GPUAnomalyDetector) (gid : String),
       (d.detectM gid).2 = d ∧ ((d.detectM gid).2.detectM gid).1 = (d.detectM gid).1) ∧
    (∀ (d d' : GPUAnomalyDetector) (gid : String),
       d.thresholds = d'.thresholds → d.history gid = d'.history gid →
       d.detect gid = d'.detect gid) := by
  refine ⟨fun d gid => ⟨rfl, rfl⟩, fun d d' gid ht hh => ?_⟩
  rw [GPUAnomalyDetector.detect, GPUAnomalyDetector.detect, ht, hh]

/-- Witness for c8_detect_pure: two detectors that agree on the gpu_0
window but differ elsewhere classify gpu_0 identically. -/
theorem c8_witness :
    c8DetectorA.thresholds = c8DetectorB.thresholds ∧
    c8DetectorA.history "gpu_0" = c8DetectorB.history "gpu_0" ∧
    c8DetectorA.detect "gpu_0" = c8DetectorB.detect "gpu_0" :=
  ⟨rfl, by simp [c8DetectorA, c8DetectorB],
    c8_detect_pure.2 c8DetectorA c8DetectorB "gpu_0" rfl (by simp [c8DetectorA, c8DetectorB])⟩

/-- Claim C4, amended. For every window whose latest sample has the
liveness flag true and a non-empty power_error string, detect returns
CRITICAL short-circuiting all later checks — but the reason is the
field's content prefixed by the fixed marker 供电异常: , not the bare
content the claim stated (see c4_counterexample). -/
theorem c4_power_error_short_circuit :
    ∀ (th : StatusThreshold) (hist : List MetricSample) (latest : MetricSample) (pe : String),
      hist.getLast? = some latest → latest.nvidia_smi_ok = some true →
      latest.power_error = some pe → pe ≠ "" →
      detectWindow th hist = some (GPUStatus.CRITICAL, Reason.text ("供电异常: " ++ pe)) := by
  intro th hist latest pe hlast hsmi hpe hne
  simp [detectWindow, hlast, hsmi, hpe, hne]

/-- Claim C4, counterexample. With power_error set to Err the reason
produced is the prefixed string, not exactly the field content. -/
theorem c4_counterexample :
    powerSample.power_error = some "Err" ∧
    (detectWindow defaultThresholds [powerSample]).map (fun r => r.2)
      = some (Reason.text "供电异常: Err") ∧
    (detectWindow defaultThresholds [powerSample]).map (fun r => r.2)
      ≠ some (Reason.text "Err") := by
  refine ⟨rfl, ?_, ?_⟩ <;> simp [detectWindow, powerSample]

/-- Witness for c4_power_error_short_circuit on a concrete one-sample
window with power_error Err. -/
theorem c4_witness :
    [powerSample].getLast? = some powerSample ∧
    powerSample.nvidia_smi_ok = some true ∧
    powerSample.power_error = some "Err" ∧ "Err" ≠ "" ∧
    detectWindow defaultThresholds [powerSample]
      = some (GPUStatus.CRITICAL, Reason.text ("供电异常: " ++ "Err")) :=
  ⟨rfl, rfl, rfl, by decide,
    c4_power_error_short_circuit defaultThresholds [powerSample] powerSample "Err"
      rfl rfl rfl (by decide)⟩

lemma deliveredFlag_false (res : Option (List (String × (GPUStatus × Reason)))) :
    deliveredFlag ⟨false⟩ res = false := by
  cases res <;> rfl

/-- Claim C2, amended. The claim said a failing subscriber is caught,
logged, removed from the subscriber set, and that remaining subscribers
still receive.  In the code broadcast never removes a subscriber (removal
happens only in the websocket endpoint's receive loop on disconnect), so
the amended property is: broadcast leaves the subscriber list unchanged,
and making any one subscriber's send fail changes nothing except that one
subscriber's delivered flag — the detector evolution and every other
subscriber's delivery are identical, so the failure aborts nothing
beyond the one subscriber. -/
theorem c2_failure_isolated :
    (∀ (mgr : WebSocketManager) (metrics : List (String × MetricSample)),
       ((WebSocketManager.broadcast mgr metrics).1).active_connections
         = mgr.active_connections) ∧
    (∀ (det : GPUAnomalyDetector) (metrics : List (String × MetricSample))
       (pre post : List Conn) (c : Conn),
       (broadcastLoop det metrics (pre ++ ⟨false⟩ :: post)).1
         = (broadcastLoop det metrics (pre ++ c :: post)).1 ∧
       (broadcastLoop det metrics (pre ++ ⟨false⟩ :: post)).2
         = (broadcastLoop det metrics (pre ++ c :: post)).2.take pre.length
           ++ false :: (broadcastLoop det metrics (pre ++ c :: post)).2.drop (pre.length + 1)) := by
  constructor
  · intro mgr metrics; rfl
  · intro det metrics pre post c
    induction pre generalizing det with
    | nil => simp [broadcastLoop, deliveredFlag_false]
    | cons a rest ih =>
      simp only [List.cons_append, broadcastLoop, List.length_cons, List.take_succ_cons,
        List.drop_succ_cons, List.append_eq]
      exact ⟨(ih _).1, by rw [(ih _).2]⟩

lemma orNormal_joinBar_load : orNormal (joinBar ["正常负载"]) = "正常负载" := by decide

lemma detect_okSample (hist : List MetricSample) (hlast : hist.getLast? = some okSample)
    (hlen : hist.length < 3) :
    detectWindow defaultThresholds hist
      = some (GPUStatus.NORMAL, Reason.text "正常负载") := by
  have hlen' : ¬ (3 ≤ hist.length) := by omega
  simp [detectWindow, hlast, okSample, criticalMsgs, eccMsgs, tempCritMsgs, memCritMsgs,
    warnMsgs, fluctMsgs, normalText, normalDescList, loadDesc, orNormal_joinBar_load,
    defaultThresholds, hlen']
  norm_num [orNormal_joinBar_load]

lemma capAppend_getLast (w : Nat) (hw : 1 ≤ w) (l : List MetricSample) (m : MetricSample) :
    (capAppend w l m).getLast? = some m := by
  rw [capAppend]
  by_cases h : w < (l ++ [m]).length
  · rw [if_pos h]
    have hl : 1 ≤ l.length := by
      simp only [List.length_append, List.length_singleton] at h; omega
    rw [List.drop_append_of_le_length hl]
    exact List.getLast?_concat _
  · rw [if_neg h]
    exact List.getLast?_concat _

lemma capAppend_length_le (w : Nat) (l : List MetricSample) (m : MetricSample) :
    (capAppend w l m).length ≤ l.length + 1 := by
  rw [capAppend]
  split
  · simp only [List.length_drop, List.length_append, List.length_singleton]; omega
  · simp only [List.length_append, List.length_singleton]; omega

lemma update_detect_okSample (d : GPUAnomalyDetector)
    (hth : d.thresholds = defaultThresholds) (hw : 1 ≤ d.window_size)
    (hlen : ((d.history "gpu_0").getD []).length < 2) :
    (d.update "gpu_0" okSample).detect "gpu_0"
      = some (GPUStatus.NORMAL, Reason.text "正常负载") := by
  rw [GPUAnomalyDetector.detect]
  have hw2 : ((d.update "gpu_0" okSample).history "gpu_0").getD []
      = capAppend d.window_size ((d.history "gpu_0").getD []) okSample := by
    simp [GPUAnomalyDetector.update]
  have hth2 : (d.update "gpu_0" okSample).thresholds = defaultThresholds := hth
  rw [hw2, hth2]
  exact detect_okSample _ (capAppend_getLast _ hw _ _)
    (lt_of_le_of_lt (capAppend_length_le _ _ _) (by omega))

/-- Claim C2, counterexample. With a failing first subscriber and a
healthy second one, the failing subscriber is still in the subscriber list
after broadcast (refuting removal), while delivery to the second
subscriber still took place. -/
theorem c2_counterexample :
    (c2Manager.broadcast oneDeviceMetrics).1.active_connections = [⟨false⟩, ⟨true⟩] ∧
    (c2Manager.broadcast oneDeviceMetrics).2 = [false, true] := by
  have h1 : ((mkDetector 10).update "gpu_0" okSample).detect "gpu_0"
      = some (GPUStatus.NORMAL, Reason.text "正常负载") :=
    update_detect_okSample _ rfl (by simp [mkDetector]) (by simp [mkDetector])
  have hlen1 : ((((mkDetector 10).update "gpu_0" okSample).history "gpu_0").getD []).length < 2 := by
    simp [GPUAnomalyDetector.update, mkDetector, capAppend]
  have h2 : (((mkDetector 10).update "gpu_0" okSample).update "gpu_0" okSample).detect "gpu_0"
      = some (GPUStatus.NORMAL, Reason.text "正常负载") :=
    update_detect_okSample _ rfl (by simp [GPUAnomalyDetector.update, mkDetector]) hlen1
  constructor
  · rfl
  · simp [WebSocketManager.broadcast, broadcastLoop, innerLoop, c2Manager, oneDeviceMetrics,
      h1, h2, deliveredFlag]

/-- Claim C6, confirmed. For a single-sample window (hence no
fluctuation) whose sample is otherwise unremarkable — liveness true, no
power error, no ECC errors, memory ratio below 4/5, driver key absent —
temperature exactly 85 classifies CRITICAL, exactly 75 classifies
FLUCTUATING, and 74.9 classifies NORMAL. -/
theorem c6_temperature_boundaries :
    ∀ (s : MetricSample),
      s.nvidia_smi_ok = some true → s.power_error = none → s.ecc_errors = none →
      0 < s.memory_total → s.memory_used / s.memory_total < 4 / 5 →
      s.driver_version = none →
      (detectWindow defaultThresholds [{ s with temperature := 85 }]).map Prod.fst
          = some GPUStatus.CRITICAL ∧
      (detectWindow defaultThresholds [{ s with temperature := 75 }]).map Prod.fst
          = some GPUStatus.FLUCTUATING ∧
      (detectWindow defaultThresholds [{ s with temperature := 749 / 10 }]).map Prod.fst
          = some GPUStatus.NORMAL := by
  intro s hsmi hpe hecc hmt hmu hd
  have ht0 : s.memory_total ≠ 0 := hmt.ne'
  have hmu95 : ¬ ((19 : ℚ) / 20 ≤ s.memory_used / s.memory_total) := by linarith
  have hmu9 : ¬ ((9 : ℚ) / 10 ≤ s.memory_used / s.memory_total) := by linarith
  refine ⟨?_, ?_, ?_⟩
  · norm_num [detectWindow, criticalMsgs, eccMsgs, tempCritMsgs, memCritMsgs,
      defaultThresholds, hsmi, hpe, hecc, ht0, hmu95]
  · norm_num [detectWindow, criticalMsgs, eccMsgs, tempCritMsgs, memCritMsgs,
      warnMsgs, fluctMsgs, defaultThresholds, hsmi, hpe, hecc, ht0, hmu95, hmu9]
  · norm_num [detectWindow, criticalMsgs, eccMsgs, tempCritMsgs, memCritMsgs,
      warnMsgs, fluctMsgs, normalText, defaultThresholds, hsmi, hpe, hecc, ht0,
      hmu95, hmu9, hd]

/-- Witness for c6_temperature_boundaries at a concrete unremarkable
sample. -/
theorem c6_witness :
    okSample.nvidia_smi_ok = some true ∧ okSample.power_error = none ∧
    okSample.ecc_errors = none ∧ 0 < okSample.memory_total ∧
    okSample.memory_used / okSample.memory_total < 4 / 5 ∧
    okSample.driver_version = none ∧
    ((detectWindow defaultThresholds [{ okSample with temperature := 85 }]).map Prod.fst
        = some GPUStatus.CRITICAL ∧
     (detectWindow defaultThresholds [{ okSample with temperature := 75 }]).map Prod.fst
        = some GPUStatus.FLUCTUATING ∧
     (detectWindow defaultThresholds [{ okSample with temperature := 749 / 10 }]).map Prod.fst
        = some GPUStatus.NORMAL) :=
  ⟨rfl, rfl, rfl, by norm_num [okSample], by norm_num [okSample], rfl,
    c6_temperature_boundaries okSample rfl rfl rfl (by norm_num [okSample])
      (by norm_num [okSample]) rfl⟩

lemma detectWindow_isSome (th : StatusThreshold) (hist : List MetricSample)
    (hsafe : ∀ l, hist.getLast? = some l → safeSample l) :
    (detectWindow th hist).isSome := by
  cases hl : hist.getLast? with
  | none => simp [detectWindow, hl]
  | some l =>
    obtain ⟨ht0, hdrv⟩ := hsafe l hl
    have hnorm : (normalText th l).isSome := by
      rcases hdrv with hd | ⟨str, hd, htok⟩
      · simp [normalText, hd]
      · rcases htoks : pyTokens str with _ | ⟨t, ts⟩
        · exact absurd htoks htok
        · simp [normalText, hd, htoks]
    simp only [detectWindow, hl]
    by_cases h1 : l.nvidia_smi_ok = some false
    · simp [h1]
    · by_cases h2 : l.power_error.getD "" ≠ ""
      · simp [h1, h2]
      · by_cases h4 : criticalMsgs th l ≠ []
        · simp [h1, h2, ht0, h4]
        · by_cases h5 : warnMsgs th hist l ≠ []
          · simp [h1, h2, ht0, h4, h5]
          · simp [h1, h2, ht0, h4, h5, hnorm]

/-- Claim C10, amended. detect is total on a non-empty window only under
preconditions: nonzero memory_total (the division is unguarded) and a
driver_version that is absent or a string containing at least one
whitespace-separated token.  The claim required only a non-None string,
but a token-free string (for example the empty string) still raises
IndexError in the NORMAL branch — see c10_counterexample. -/
theorem c10_detect_total :
    ∀ (hist : List MetricSample) (latest : MetricSample),
      hist.getLast? = some latest → latest.memory_total ≠ 0 →
      (latest.driver_version = none ∨
        ∃ s, latest.driver_version = some (some s) ∧ pyTokens s ≠ []) →
      (detectWindow defaultThresholds hist).isSome := by
  intro hist latest hlast ht hd
  refine detectWindow_isSome _ _ fun l hl => ?_
  rw [hlast] at hl
  obtain rfl := Option.some.inj hl
  exact ⟨ht, hd⟩

/-- Witness for c10_detect_total on a concrete window whose sample has
a well-formed driver version string. -/
theorem c10_witness :
    [c10okSample].getLast? = some c10okSample ∧ c10okSample.memory_total ≠ 0 ∧
    (c10okSample.driver_version = none ∨
      ∃ s, c10okSample.driver_version = some (some s) ∧ pyTokens s ≠ []) ∧
    (detectWindow defaultThresholds [c10okSample]).isSome :=
  ⟨rfl, by norm_num [c10okSample, okSample], Or.inr ⟨"535.104.05", rfl, by decide⟩,
    c10_detect_total [c10okSample] c10okSample rfl
      (by norm_num [c10okSample, okSample]) (Or.inr ⟨"535.104.05", rfl, by decide⟩)⟩

/-- Claim C10, counterexample. A sample satisfying all the claim's
stated preconditions (non-empty window, nonzero memory_total, a non-None
driver string — the empty string) still makes detect raise: the embedded
evaluation returns none. -/
theorem c10_counterexample :
    emptyDriverSample.memory_total ≠ 0 ∧
    emptyDriverSample.driver_version = some (some "") ∧
    detectWindow defaultThresholds [emptyDriverSample] = none := by
  have hpt : pyTokens "" = [] := by decide
  refine ⟨by norm_num [emptyDriverSample], rfl, ?_⟩
  norm_num [detectWindow, emptyDriverSample, criticalMsgs, eccMsgs, tempCritMsgs,
    memCritMsgs, warnMsgs, fluctMsgs, normalText, defaultThresholds, hpt]

lemma criticalMsgs_eq_nil_iff (th : StatusThreshold) (l : MetricSample) :
    criticalMsgs th l = [] ↔
      (¬ ∃ n, l.ecc_errors = some n ∧ 0 < n) ∧
      ¬ th.temp_critical ≤ l.temperature ∧
      ¬ th.memory_critical ≤ l.memory_used / l.memory_total := by
  unfold criticalMsgs eccMsgs tempCritMsgs memCritMsgs
  cases he : l.ecc_errors with
  | none => split_ifs <;> simp_all
  | some n => split_ifs <;> simp_all

lemma criticalCond_of_msgs (hist : List MetricSample) (l : MetricSample)
    (hl : hist.getLast? = some l) (h : criticalMsgs defaultThresholds l ≠ []) :
    criticalCond hist := by
  refine Or.inr ⟨l, hl, ?_⟩
  by_contra hc
  simp only [not_or] at hc
  obtain ⟨hs, hp, he, ht, hm⟩ := hc
  exact h ((criticalMsgs_eq_nil_iff _ _).mpr ⟨he, ht, hm⟩)

lemma no_critical (hist : List MetricSample) (l : MetricSample)
    (hl : hist.getLast? = some l) (h1 : ¬ l.nvidia_smi_ok = some false)
    (h2 : ¬ l.power_error.getD "" ≠ "")
    (h4 : ¬ criticalMsgs defaultThresholds l ≠ []) :
    ¬ criticalCond hist := by
  rintro (hnil | ⟨l2, hl2, hc⟩)
  · rw [hnil] at hl; simp at hl
  · rw [hl] at hl2
    obtain rfl := Option.some.inj hl2
    obtain ⟨hne, hnt, hnm⟩ := (criticalMsgs_eq_nil_iff defaultThresholds l).mp (not_not.mp h4)
    rcases hc with h | h | h | h | h
    · exact h1 h
    · exact h2 h
    · exact hne h
    · exact hnt h
    · exact hnm h

lemma warnMsgs_ne_nil (hist : List MetricSample) (l : MetricSample)
    (h : (3 ≤ hist.length ∧
      (defaultThresholds.util_std_warning * defaultThresholds.util_std_warning
         ≤ popVar (hist.map fun m => m.utilization_gpu) ∨
       defaultThresholds.power_std_warning * defaultThresholds.power_std_warning
         ≤ popVar (hist.map fun m => m.power_draw))) ∨
     defaultThresholds.temp_warning ≤ l.temperature ∨
     defaultThresholds.memory_high ≤ l.memory_used / l.memory_total) :
    warnMsgs defaultThresholds hist l ≠ [] := by
  intro hc
  rw [warnMsgs, fluctMsgs] at hc
  rcases h with ⟨h3, hu | hp⟩ | ht | hm
  · rw [if_pos h3, if_pos hu] at hc; simp at hc
  · rw [if_pos h3] at hc; simp [hp] at hc
  · simp [ht] at hc
  · simp [hm] at hc

/-- Claim C5, confirmed. Whenever detect returns a result: if any
CRITICAL condition holds (empty window, liveness flag present-and-false,
power-error set, ecc_errors positive, temperature at or above 85, or
memory ratio at or above 19/20) the result is never FLUCTUATING and never
NORMAL; and if any FLUCTUATING condition holds while no CRITICAL condition
does, the result is never NORMAL.  Severity is totally ordered with no
blending. -/
theorem c5_severity_total_order :
    ∀ (hist : List MetricSample) (r : GPUStatus × Reason),
      detectWindow defaultThresholds hist = some r →
      (criticalCond hist → r.1 ≠ GPUStatus.FLUCTUATING ∧ r.1 ≠ GPUStatus.NORMAL) ∧
      (fluctCond hist → ¬ criticalCond hist → r.1 ≠ GPUStatus.NORMAL) := by
  intro hist r hr
  cases hl : hist.getLast? with
  | none =>
    have hnil : hist = [] := List.getLast?_eq_none_iff.mp hl
    subst hnil
    rw [detectWindow] at hr
    simp only [List.getLast?_nil, Option.some.injEq] at hr
    subst hr
    exact ⟨fun _ => ⟨by decide, by decide⟩,
      fun _ hnc => absurd (Or.inl rfl) hnc⟩
  | some l =>
    simp only [detectWindow, hl] at hr
    by_cases h1 : l.nvidia_smi_ok = some false
    · rw [if_pos h1, Option.some.injEq] at hr
      subst hr
      exact ⟨fun _ => ⟨by decide, by decide⟩,
        fun _ hnc => absurd (Or.inr ⟨l, hl, Or.inl h1⟩) hnc⟩
    · rw [if_neg h1] at hr
      by_cases h2 : l.power_error.getD "" ≠ ""
      · rw [if_pos h2, Option.some.injEq] at hr
        subst hr
        exact ⟨fun _ => ⟨nofun, nofun⟩,
          fun _ hnc => absurd (Or.inr ⟨l, hl, Or.inr (Or.inl h2)⟩) hnc⟩
      · rw [if_neg h2] at hr
        by_cases h3 : l.memory_total = 0
        · rw [if_pos h3] at hr
          exact absurd hr (by simp)
        · rw [if_neg h3] at hr
          by_cases h4 : criticalMsgs defaultThresholds l ≠ []
          · rw [if_pos h4, Option.some.injEq] at hr
            subst hr
            exact ⟨fun _ => ⟨nofun, nofun⟩,
              fun _ hnc => absurd (criticalCond_of_msgs hist l hl h4) hnc⟩
          · rw [if_neg h4] at hr
            by_cases h5 : warnMsgs defaultThresholds hist l ≠ []
            · rw [if_pos h5, Option.some.injEq] at hr
              subst hr
              exact ⟨fun hcrit => absurd hcrit (no_critical hist l hl h1 h2 h4),
                fun _ _ => nofun⟩
            · rw [if_neg h5] at hr
              cases hnt : normalText defaultThresholds l with
              | none => rw [hnt] at hr; exact absurd hr (by simp)
              | some s =>
                rw [hnt] at hr
                simp only [Option.map_some', Option.some.injEq] at hr
                subst hr
                refine ⟨fun hcrit => absurd hcrit (no_critical hist l hl h1 h2 h4),
                  fun hf _ => ?_⟩
                obtain ⟨l2, hl2, hcond⟩ := hf
                rw [hl] at hl2
                obtain rfl := Option.some.inj hl2
                exact absurd (not_not.mp h5) (warnMsgs_ne_nil hist l hcond)

/-- Witness for c5_severity_total_order on a concrete window whose
latest sample has temperature 90. -/
theorem c5_witness :
    detectWindow defaultThresholds [critSample]
      = some (GPUStatus.CRITICAL, Reason.msgs [Msg.tempCritical 90]) ∧
    criticalCond [critSample] ∧
    ((GPUStatus.CRITICAL, Reason.msgs [Msg.tempCritical 90]).1 ≠ GPUStatus.FLUCTUATING ∧
     (GPUStatus.CRITICAL, Reason.msgs [Msg.tempCritical 90]).1 ≠ GPUStatus.NORMAL) := by
  have hcond : criticalCond [critSample] :=
    Or.inr ⟨critSample, rfl, Or.inr (Or.inr (Or.inr (Or.inl
      (by norm_num [critSample, okSample, defaultThresholds]))))⟩
  have hdet : detectWindow defaultThresholds [critSample]
      = some (GPUStatus.CRITICAL, Reason.msgs [Msg.tempCritical 90]) := by
    norm_num [detectWindow, criticalMsgs, eccMsgs, tempCritMsgs, memCritMsgs,
      critSample, okSample, defaultThresholds]
  exact ⟨hdet, hcond, (c5_severity_total_order [critSample] _ hdet).1 hcond⟩

lemma capAppend_getLast_eq (w : Nat) (l : List MetricSample) (m x : MetricSample)
    (h : (capAppend w l m).getLast? = some x) : x = m := by
  rw [capAppend] at h
  by_cases hc : w < (l ++ [m]).length
  · rw [if_pos hc] at h
    cases l with
    | nil => simp at h
    | cons a as =>
      rw [List.cons_append, List.drop_succ_cons, List.drop_zero, List.getLast?_concat] at h
      exact (Option.some.inj h).symm
  · rw [if_neg hc, List.getLast?_concat] at h
    exact (Option.some.inj h).symm

lemma detect_update_isSome (d : GPUAnomalyDetector) (gid : String) (m : MetricSample)
    (hm : safeSample m) : ((d.update gid m).detect gid).isSome := by
  rw [GPUAnomalyDetector.detect]
  have hw : ((d.update gid m).history gid).getD []
      = capAppend d.window_size ((d.history gid).getD []) m := by
    simp [GPUAnomalyDetector.update]
  rw [hw]
  refine detectWindow_isSome _ _ fun l hl => ?_
  obtain rfl := capAppend_getLast_eq _ _ _ _ hl
  exact hm

lemma runUpdates_cons (d : GPUAnomalyDetector) (p : String × MetricSample)
    (rest : List (String × MetricSample)) :
    runUpdates d (p :: rest) = runUpdates (d.update p.1 p.2) rest := rfl

lemma innerLoop_safe : ∀ (items : List (String × MetricSample)) (det : GPUAnomalyDetector),
    (∀ p ∈ items, safeSample p.2) →
    (innerLoop det items).1 = runUpdates det items ∧ ((innerLoop det items).2).isSome := by
  intro items
  induction items with
  | nil => intro det _; exact ⟨rfl, rfl⟩
  | cons p rest ih =>
    intro det hsafe
    obtain ⟨gid, m⟩ := p
    have hm : safeSample m := hsafe (gid, m) (by simp)
    obtain ⟨sr, hsr⟩ := Option.isSome_iff_exists.mp (detect_update_isSome det gid m hm)
    have hrest := ih (det.update gid m) fun q hq => hsafe q (by simp [hq])
    rcases hrec : innerLoop (det.update gid m) rest with ⟨det3, res⟩
    rw [hrec] at hrest
    cases res with
    | none => simp at hrest
    | some tl =>
      have hstep : innerLoop det ((gid, m) :: rest) = (det3, some ((gid, sr) :: tl)) := by
        simp only [innerLoop, hsr, hrec]
      rw [hstep, runUpdates_cons]
      exact ⟨hrest.1, rfl⟩

lemma windowOf_update (d : GPUAnomalyDetector) (g gid : String) (m : MetricSample) :
    windowOf (d.update g m) gid
      = if gid = g then capAppend d.window_size (windowOf d g) m else windowOf d gid := by
  by_cases h : gid = g <;> simp [windowOf, GPUAnomalyDetector.update, h]

lemma devSamples_cons (p : String × MetricSample) (rest : List (String × MetricSample))
    (gid : String) :
    devSamples (p :: rest) gid
      = (if p.1 == gid then [p.2] else []) ++ devSamples rest gid := by
  by_cases h : p.1 == gid <;> simp [devSamples, List.filter_cons, h]

lemma windowOf_runUpdates : ∀ (items : List (String × MetricSample))
    (d : GPUAnomalyDetector) (gid : String),
    windowOf (runUpdates d items) gid
      = List.foldl (capAppend d.window_size) (windowOf d gid) (devSamples items gid) := by
  intro items
  induction items with
  | nil => intro d gid; rfl
  | cons p rest ih =>
    intro d gid
    rw [runUpdates_cons, ih, devSamples_cons]
    have hwsz : (d.update p.1 p.2).window_size = d.window_size := rfl
    rw [hwsz, windowOf_update]
    by_cases h : p.1 == gid
    · have hg : gid = p.1 := (beq_iff_eq.mp h).symm
      rw [if_pos h, if_pos hg, hg]
      rfl
    · have hg : ¬ gid = p.1 := fun hc => by simp [hc] at h
      rw [if_neg h, if_neg hg]
      rfl

lemma broadcastLoop_window : ∀ (conns : List Conn) (det : GPUAnomalyDetector)
    (metrics : List (String × MetricSample)) (gid : String) (m : MetricSample),
    (∀ p ∈ metrics, safeSample p.2) → devSamples metrics gid = [m] →
    windowOf (broadcastLoop det metrics conns).1 gid
      = List.foldl (capAppend det.window_size) (windowOf det gid)
          (List.replicate conns.length m) := by
  intro conns
  induction conns with
  | nil => intro det metrics gid m _ _; rfl
  | cons c rest ih =>
    intro det metrics gid m hsafe hdev
    have hs := innerLoop_safe metrics det hsafe
    have hwin : windowOf (innerLoop det metrics).1 gid
        = capAppend det.window_size (windowOf det gid) m := by
      rw [hs.1, windowOf_runUpdates, hdev]
      rfl
    have hwsz : (innerLoop det metrics).1.window_size = det.window_size := by
      rw [hs.1]
      exact window_size_runUpdates det metrics
    have hb : (broadcastLoop det metrics (c :: rest)).1
        = (broadcastLoop (innerLoop det metrics).1 metrics rest).1 := by
      simp only [broadcastLoop]
    rw [hb, ih (innerLoop det metrics).1 metrics gid m hsafe hdev, hwsz, hwin,
      List.length_cons, List.replicate_succ, List.foldl_cons]

/-- Claim C9, amended. The broadcast method runs window update and
classification inside the subscriber loop: with zero subscribers no window
is updated and nothing runs, and — provided every sample in the snapshot
is one on which detect cannot raise — a device occurring once in the
snapshot has its window extended by exactly one appended copy of its
sample per active connection (N copies for N connections, subject to the
capacity bound).  The safety proviso is necessary: see c9_counterexample. -/
theorem c9_per_subscriber_updates :
    (∀ (mgr : WebSocketManager) (metrics : List (String × MetricSample)),
       mgr.active_connections = [] → mgr.broadcast metrics = (mgr, [])) ∧
    (∀ (mgr : WebSocketManager) (metrics : List (String × MetricSample)) (gid : String)
       (m : MetricSample),
       (∀ p ∈ metrics, safeSample p.2) → devSamples metrics gid = [m] →
       windowOf (mgr.broadcast metrics).1.anomaly_detector gid
         = List.foldl (capAppend mgr.anomaly_detector.window_size)
             (windowOf mgr.anomaly_detector gid)
             (List.replicate mgr.active_connections.length m)) := by
  constructor
  · intro mgr metrics h
    have hb : broadcastLoop mgr.anomaly_detector metrics mgr.active_connections
        = (mgr.anomaly_detector, []) := by rw [h, broadcastLoop]
    simp only [WebSocketManager.broadcast, hb]
  · intro mgr metrics gid m hsafe hdev
    have hb : (mgr.broadcast metrics).1.anomaly_detector
        = (broadcastLoop mgr.anomaly_detector metrics mgr.active_connections).1 := by
      simp only [WebSocketManager.broadcast]
    rw [hb]
    exact broadcastLoop_window mgr.active_connections mgr.anomaly_detector metrics gid m
      hsafe hdev

/-- Claim C9, counterexample to the unconditional claim. With one
active connection and a snapshot containing a bad device (memory_total 0,
whose classification raises) before device gpu_b, the inner loop aborts
and gpu_b's window receives zero copies instead of one. -/
theorem c9_counterexample :
    c9Manager.active_connections.length = 1 ∧
    devSamples c9BadMetrics "gpu_b" = [okSample] ∧
    windowOf (c9Manager.broadcast c9BadMetrics).1.anomaly_detector "gpu_b" = [] := by
  have hbad : ((mkDetector 10).update "gpu_a" badSample).detect "gpu_a" = none := by
    rw [GPUAnomalyDetector.detect]
    have hw : (((mkDetector 10).update "gpu_a" badSample).history "gpu_a").getD []
        = [badSample] := by
      simp [GPUAnomalyDetector.update, mkDetector, capAppend]
    rw [hw]
    norm_num [detectWindow, badSample]
  refine ⟨rfl, by simp [devSamples, c9BadMetrics], ?_⟩
  simp only [WebSocketManager.broadcast, c9Manager, c9BadMetrics, broadcastLoop,
    innerLoop, hbad]
  simp [windowOf, GPUAnomalyDetector.update, mkDetector]

/-- Witness for c9_per_subscriber_updates: two healthy connections and
a one-device snapshot append two copies to that device's window. -/
theorem c9_witness :
    (∀ p ∈ oneDeviceMetrics, safeSample p.2) ∧
    devSamples oneDeviceMetrics "gpu_0" = [okSample] ∧
    windowOf (c9OkManager.broadcast oneDeviceMetrics).1.anomaly_detector "gpu_0"
      = List.foldl (capAppend c9OkManager.anomaly_detector.window_size)
          (windowOf c9OkManager.anomaly_detector "gpu_0")
          (List.replicate c9OkManager.active_connections.length okSample) := by
  have hsafe : ∀ p ∈ oneDeviceMetrics, safeSample p.2 := by
    intro p hp
    simp only [oneDeviceMetrics, List.mem_singleton] at hp
    subst hp
    exact ⟨by norm_num [okSample], Or.inl rfl⟩
  have hdev : devSamples oneDeviceMetrics "gpu_0" = [okSample] := by
    simp [devSamples, oneDeviceMetrics]
  exact ⟨hsafe, hdev,
    c9_per_subscriber_updates.2 c9OkManager oneDeviceMetrics "gpu_0" okSample hsafe hdev⟩

/-- Claim C3, code bug. At a tick 60 seconds after the last ECC check,
with two devices and the ECC command reporting counts for both, the code
stamps the cadence timestamp inside the per-device loop after device 0, so
only gpu_0 receives its count while gpu_1's ecc_errors stays unset even
though the check computed a count for it; the power and driver cadence
counters are untouched.  The claim (and the ECC checker itself, which
returns a per-device map) expects every device present in the tick to be
refreshed. -/
theorem c3_ecc_refresh_bug :
    (60 : ℚ) ≤ c3Env.now - c3State.last_ecc_check ∧
    lookupA c3Env.ecc_result "gpu_1" = some 2 ∧
    (lookupA (get_metrics c3State c3Env).2 "gpu_0").map MetricSample.ecc_errors
      = some (some 1) ∧
    (lookupA (get_metrics c3State c3Env).2 "gpu_1").map MetricSample.ecc_errors
      = some none ∧
    (get_metrics c3State c3Env).1.last_ecc_check = 60 ∧
    (get_metrics c3State c3Env).1.last_power_check = 0 ∧
    (get_metrics c3State c3Env).1.last_driver_check = 0 := by
  have hk0 : gpuKey 0 = "gpu_0" := rfl
  have hk1 : gpuKey 1 = "gpu_1" := rfl
  have h0 : deviceStep c3Env c3State 0 = (c3StateAfter, ("gpu_0", c3SampleEcc)) := by
    norm_num [deviceStep, c3Env, c3State, c3Basic, c3StateAfter, c3SampleEcc,
      lookupA, hk0]
  have h1 : deviceStep c3Env c3StateAfter 1 = (c3StateAfter, ("gpu_1", c3SampleNoEcc)) := by
    norm_num [deviceStep, c3Env, c3StateAfter, c3Basic, c3SampleNoEcc, lookupA, hk1]
  have hm : get_metrics c3State c3Env
      = (c3StateAfter, [("gpu_0", c3SampleEcc), ("gpu_1", c3SampleNoEcc)]) := by
    have hr : List.range c3State.device_count = [0, 1] := rfl
    rw [get_metrics, hr]
    simp only [List.foldl_cons, List.foldl_nil, h0]
    simp only [h1]
    simp
  rw [hm]
  refine ⟨by norm_num [c3Env, c3State], rfl, ?_, ?_, rfl, rfl, rfl⟩ <;>
    simp [lookupA, c3SampleEcc, c3SampleNoEcc, c3Basic]
